import Mathlib

/-!
Verification of the Visual Product Matcher frontend.

This file gives a shallow embedding of the TypeScript source of the
repository and proves properties of it:

- src/lib/api.ts (ApiClient): searchSimilarProducts form construction with
  its defaults, and getImageUrl.
- src/components/ProductMatcher.tsx: the filteredResults threshold/category
  filter, handleImageUpload, and the validation branch of handleSearch.
- src/components/ImageUploader.tsx: handleFiles validation.
- src/components/ProductCard.tsx: the derived similarity percentage.
- src/data/mockProducts.ts: the mock catalog and generateMockSearchResults.

JavaScript numbers are modelled as rationals, JavaScript strings as Lean
strings, and the stream of Math.random() draws as an explicit argument
(a function from the draw index to the drawn value).
-/

/-- Models the JavaScript expression o || d for a possibly missing number o:
the result is o when o is present and truthy (nonzero), and d otherwise. -/
def jsNumOr (o : Option ℚ) (d : ℚ) : ℚ :=
  match o with
  | some x => if x = 0 then d else x
  | none => d

/-- Character-list core of String.startsWith: leadsWith pat s decides whether
pat is an initial segment of s. -/
def leadsWith : List Char → List Char → Bool
  | [], _ => true
  | _ :: _, [] => false
  | c :: cs, d :: ds => c == d && leadsWith cs ds

/-- Models the JavaScript s.startsWith(pat). -/
def jsStartsWith (s pat : String) : Bool := leadsWith pat.data s.data

/-- Truthiness of a JavaScript string-or-null value: null and the empty
string are falsy. -/
def jsTruthyStr : Option String → Bool
  | none => false
  | some s => !s.isEmpty

/-- Models the JavaScript expression u || undefined for a string-or-null u:
null and the empty string collapse to undefined (none). -/
def jsStrOrUndef (o : Option String) : Option String :=
  match o with
  | some s => if s.isEmpty then none else some s
  | none => none

/-- A browser File value as seen by the frontend code: name, declared MIME
content type, and size in bytes. -/
structure FileV where
  name : String
  type : String
  size : ℕ
deriving DecidableEq

/-- A value stored in a FormData entry: a file, a string, or a number (the
source stringifies numbers with toString; the numeric payload is kept). -/
inductive FormVal where
  | file (f : FileV)
  | str (s : String)
  | num (q : ℚ)
deriving DecidableEq

/-- Embedding of ApiClient.searchSimilarProducts from src/lib/api.ts: the
FormData built for POST /api/search. A file entry is appended when a file is
given, an image_url entry when a non-empty URL is given (JavaScript if. on
the string skips the empty string), and top_k and similarity_threshold are
always appended; the parameter defaults in the source are topK = 11 and
similarityThreshold = 0.0. -/
def searchSimilarProductsForm (file : Option FileV) (imageUrl : Option String)
    (topK : ℤ := 11) (similarityThreshold : ℚ := 0) : List (String × FormVal) :=
  (match file with
   | some f => [("file", FormVal.file f)]
   | none => []) ++
  (match imageUrl with
   | some u => if u.isEmpty then [] else [("image_url", FormVal.str u)]
   | none => []) ++
  [("top_k", FormVal.num (topK : ℚ)), ("similarity_threshold", FormVal.num similarityThreshold)]

/-- Embedding of ApiClient.getImageUrl from src/lib/api.ts, with the
client's base URL as an explicit first argument. -/
def getImageUrl (baseUrl : String) (imagePath : String) : String :=
  if jsStartsWith imagePath "http" then
    imagePath
  else
    let cleanPath := if jsStartsWith imagePath "static/" then imagePath else "static/" ++ imagePath
    baseUrl ++ "/" ++ cleanPath

/-- The default API base URL from src/lib/api.ts (used when VITE_API_URL is
not set). -/
def defaultApiBaseUrl : String := "http://localhost:8000"

/-- The Product record of src/lib/api.ts (a superset of the interface in
src/data/mockProducts.ts, which lacks similarity_percentage). -/
structure Product where
  id : String
  name : String
  category : String
  price : ℚ
  currency : String
  image_path : String
  description : String
  brand : String
  available : Bool
  similarity : Option ℚ := none
  similarity_percentage : Option ℚ := none
deriving DecidableEq

/-- Bundled asset URL for product-phone.jpg (the import target in
src/data/mockProducts.ts). -/
def phoneImg : String := "/assets/product-phone.jpg"

/-- Bundled asset URL for product-bag.jpg. -/
def bagImg : String := "/assets/product-bag.jpg"

/-- Bundled asset URL for product-shoes.jpg. -/
def shoesImg : String := "/assets/product-shoes.jpg"

/-- Bundled asset URL for product-headphones.jpg. -/
def headphonesImg : String := "/assets/product-headphones.jpg"

/-- Catalog entry 1 of src/data/mockProducts.ts. -/
def mockProduct1 : Product :=
  { id := "1", name := "iPhone 15 Pro", category := "Electronics", price := 999,
    currency := "USD", image_path := phoneImg,
    description := "Latest flagship smartphone with titanium design",
    brand := "Apple", available := true }

/-- Catalog entry 2 of src/data/mockProducts.ts. -/
def mockProduct2 : Product :=
  { id := "2", name := "Premium Leather Handbag", category := "Bags", price := 299,
    currency := "USD", image_path := bagImg,
    description := "Luxury leather handbag with elegant design",
    brand := "Designer Brand", available := true }

/-- Catalog entry 3 of src/data/mockProducts.ts. -/
def mockProduct3 : Product :=
  { id := "3", name := "Athletic Running Shoes", category := "Shoes", price := 129,
    currency := "USD", image_path := shoesImg,
    description := "Premium running sneakers for athletic performance",
    brand := "SportBrand", available := true }

/-- Catalog entry 4 of src/data/mockProducts.ts. -/
def mockProduct4 : Product :=
  { id := "4", name := "Wireless Headphones", category := "Electronics", price := 199,
    currency := "USD", image_path := headphonesImg,
    description := "High-quality wireless headphones with noise cancellation",
    brand := "AudioTech", available := true }

/-- Catalog entry 5 of src/data/mockProducts.ts. -/
def mockProduct5 : Product :=
  { id := "5", name := "Samsung Galaxy S24", category := "Electronics", price := 899,
    currency := "USD", image_path := phoneImg,
    description := "Android flagship with AI features",
    brand := "Samsung", available := true }

/-- Catalog entry 6 of src/data/mockProducts.ts. -/
def mockProduct6 : Product :=
  { id := "6", name := "Classic Crossbody Bag", category := "Bags", price := 179,
    currency := "USD", image_path := bagImg,
    description := "Versatile crossbody bag for everyday use",
    brand := "Fashion Co", available := true }

/-- Catalog entry 7 of src/data/mockProducts.ts. -/
def mockProduct7 : Product :=
  { id := "7", name := "Trail Running Shoes", category := "Shoes", price := 149,
    currency := "USD", image_path := shoesImg,
    description := "Durable shoes designed for trail running",
    brand := "OutdoorGear", available := true }

/-- Catalog entry 8 of src/data/mockProducts.ts. -/
def mockProduct8 : Product :=
  { id := "8", name := "Gaming Headset", category := "Electronics", price := 89,
    currency := "USD", image_path := headphonesImg,
    description := "Professional gaming headset with RGB lighting",
    brand := "GameTech", available := true }

/-- The mock catalog of src/data/mockProducts.ts, in its insertion order. -/
def mockProducts : List Product :=
  [mockProduct1, mockProduct2, mockProduct3, mockProduct4,
   mockProduct5, mockProduct6, mockProduct7, mockProduct8]

/-- The expression (p.similarity || 0) used by the sort comparator in
src/data/mockProducts.ts. -/
def simOr0 (p : Product) : ℚ := jsNumOr p.similarity 0

/-- The comparator of the sort in generateMockSearchResults: the JavaScript
comparator (b.similarity || 0) - (a.similarity || 0) puts a no later than b
exactly when that difference is nonpositive; a stable sort with that
comparator is a merge sort with this Boolean relation. -/
def mockCmpLe (a b : Product) : Bool := decide (simOr0 b - simOr0 a ≤ 0)

/-- The intermediate list of generateMockSearchResults: each catalog product
receives similarity rand i * 0.4 + 0.6, where rand i is the i-th
Math.random() draw of the invocation. -/
def mockWithScores (rand : ℕ → ℚ) : List Product :=
  mockProducts.mapIdx fun i p => { p with similarity := some (rand i * (2/5) + 3/5) }

/-- Embedding of generateMockSearchResults from src/data/mockProducts.ts.
The Math.random() draws of the invocation are passed as rand; the
uploadedImage parameter is kept because the source declares it (the body
never reads it). The JavaScript stable sort is modelled by mergeSort. -/
def generateMockSearchResults (rand : ℕ → ℚ) (uploadedImage : Option String) : List Product :=
  (mockWithScores rand).mergeSort mockCmpLe

/-- The expression product.similarity_percentage || product.similarity || 0
of the filter in src/components/ProductMatcher.tsx. -/
def effectiveSimilarity (p : Product) : ℚ :=
  jsNumOr p.similarity_percentage (jsNumOr p.similarity 0)

/-- The category test of the filter in src/components/ProductMatcher.tsx:
no selected categories, or All selected, or the product's category
selected. -/
def meetsCategory (selectedCategories : List String) (p : Product) : Bool :=
  selectedCategories.isEmpty || selectedCategories.contains "All" ||
    selectedCategories.contains p.category

/-- Embedding of the filteredResults memo of src/components/ProductMatcher.tsx:
keep the search results whose effective similarity reaches the threshold and
whose category passes the category selection. -/
def filteredResults (searchResults : List Product) (similarityThreshold : ℚ)
    (selectedCategories : List String) : List Product :=
  searchResults.filter fun p =>
    decide (effectiveSimilarity p ≥ similarityThreshold) && meetsCategory selectedCategories p

/-- The component state of ProductMatcher relevant to upload and search. -/
structure MatcherState where
  uploadedImage : Option String
  uploadedFile : Option FileV
  imageUrl : Option String
  hasSearched : Bool
  error : Option String
deriving DecidableEq

/-- The initial ProductMatcher state: every upload source null. -/
def initialMatcherState : MatcherState :=
  { uploadedImage := none, uploadedFile := none, imageUrl := none,
    hasSearched := false, error := none }

/-- Model of URL.createObjectURL: the blob URL minted for an uploaded file. -/
def createObjectURL (f : FileV) : String := "blob:" ++ f.name

/-- An argument to handleImageUpload: a File or a URL string. -/
inductive UploadInput where
  | file (f : FileV)
  | url (u : String)

/-- Embedding of handleImageUpload from src/components/ProductMatcher.tsx:
a URL stores the URL and clears the stored file; a file stores the file (and
its object URL as preview) and clears the stored URL; both clear the error
and reset hasSearched. -/
def handleImageUpload (s : MatcherState) (i : UploadInput) : MatcherState :=
  match i with
  | .url u =>
    { s with error := none, uploadedImage := some u, imageUrl := some u,
             uploadedFile := none, hasSearched := false }
  | .file f =>
    { s with error := none, uploadedImage := some (createObjectURL f),
             uploadedFile := some f, imageUrl := none, hasSearched := false }

/-- The observable outcome of handleSearch: either the no-image validation
toast with no API call, or a call of the search API with the FormData it
submits. -/
inductive SearchOutcome where
  | noImageToast
  | apiCall (form : List (String × FormVal))
deriving DecidableEq

/-- Embedding of the validation and call structure of handleSearch from
src/components/ProductMatcher.tsx: a falsy uploadedImage short-circuits into
the destructive No image selected toast and returns without calling the API;
otherwise searchProducts is called with uploadedFile || undefined,
imageUrl || undefined, top_k 11 and threshold 0.0. -/
def handleSearch (s : MatcherState) : SearchOutcome :=
  if jsTruthyStr s.uploadedImage then
    .apiCall (searchSimilarProductsForm s.uploadedFile (jsStrOrUndef s.imageUrl) 11 0)
  else
    .noImageToast

/-- Whether a SearchOutcome invokes the search API. -/
def callsSearchApi : SearchOutcome → Bool
  | .noImageToast => false
  | .apiCall _ => true

/-- The observable outcome of handleFiles in src/components/ImageUploader.tsx. -/
inductive UploadOutcome where
  | noFile
  | invalidTypeToast
  | tooLargeToast
  | accepted (f : FileV)
deriving DecidableEq

/-- Embedding of handleFiles from src/components/ImageUploader.tsx: take the
first file; reject with the invalid-type toast when its content type does not
start with image/; reject with the too-large toast when it exceeds 10MB;
otherwise accept it and hand it to onImageUpload. -/
def handleFiles (files : List FileV) : UploadOutcome :=
  match files with
  | [] => .noFile
  | f :: _ =>
    if !jsStartsWith f.type "image/" then .invalidTypeToast
    else if f.size > 10 * 1024 * 1024 then .tooLargeToast
    else .accepted f

/-- Embedding of the similarityPercentage constant of
src/components/ProductCard.tsx: product.similarity is tested for truthiness
and Math.round(product.similarity * 100) is taken when it is truthy, 0
otherwise. Math.round rounds half toward positive infinity, which is
Mathlib's round. -/
def similarityPercentage (p : Product) : ℤ :=
  match p.similarity with
  | some s => if s = 0 then 0 else round (s * 100)
  | none => 0


/-- The catalog with every similarity set to one constant value (the shape
mockWithScores takes when every Math.random draw is the same). -/
def mockWithConstSim (q : ℚ) : List Product :=
  mockProducts.map fun p => { p with similarity := some q }

/-- Exactly one of the two request sources of the ProductMatcher state is
set: a stored file with no stored URL, or a stored URL with no stored
file. -/
def exactlyOneSource (s : MatcherState) : Prop :=
  (s.uploadedFile.isSome = true ∧ s.imageUrl = none) ∨
  (s.uploadedFile = none ∧ s.imageUrl.isSome = true)

/-- A concrete search result used to instantiate theorems: similarity 0.85,
similarity percentage 85. -/
def sampleResult : Product :=
  { id := "w1", name := "Sample", category := "Electronics", price := 10,
    currency := "USD", image_path := "static/images/sample.jpg",
    description := "sample", brand := "SampleBrand", available := true,
    similarity := some (17/20), similarity_percentage := some 85 }

/-- A concrete uploaded JPEG file used to instantiate theorems. -/
def sampleFile : FileV := { name := "query.jpg", type := "image/jpeg", size := 2048 }

/-- A concrete image URL used to instantiate theorems. -/
def sampleUrl : String := "http://example.com/query.jpg"

/-- A concrete GIF file: its content type starts with image/ but is none of
JPEG, PNG, WebP. -/
def gifFile : FileV := { name := "anim.gif", type := "image/gif", size := 1024 }

/-- A concrete non-image file. -/
def textFile : FileV := { name := "notes.txt", type := "text/plain", size := 10 }

/-- Concatenating Lean strings concatenates their character data. -/
theorem string_data_append (a b : String) : (a ++ b).data = a.data ++ b.data := rfl

/-- A leading segment of s is still a leading segment after appending to s. -/
theorem leadsWith_append (pat s t : List Char) (h : leadsWith pat s = true) :
    leadsWith pat (s ++ t) = true := by
  induction pat generalizing s with
  | nil => simp [leadsWith]
  | cons c cs ih =>
    cases s with
    | nil => simp [leadsWith] at h
    | cons d ds =>
      simp only [leadsWith, Bool.and_eq_true] at h ⊢
      exact ⟨h.1, ih ds (by simpa using h.2)⟩

/-- startsWith is preserved by appending on the right. -/
theorem jsStartsWith_append (s t pat : String) (h : jsStartsWith s pat = true) :
    jsStartsWith (s ++ t) pat = true := by
  unfold jsStartsWith at h ⊢
  rw [string_data_append]
  exact leadsWith_append _ _ _ h

/-- A relation that holds between all pairs holds pairwise on every list. -/
theorem pairwise_of_all {α : Type} {R : α → α → Prop} (h : ∀ a b, R a b) :
    ∀ l : List α, l.Pairwise R
  | [] => .nil
  | _ :: l => .cons (fun b _ => h _ b) (pairwise_of_all h l)

/-- The mock sort comparator is transitive. -/
theorem mockCmpLe_trans (a b c : Product) :
    mockCmpLe a b → mockCmpLe b c → mockCmpLe a c := by
  simp only [mockCmpLe, decide_eq_true_eq]
  intro h1 h2
  linarith

/-- The mock sort comparator is total. -/
theorem mockCmpLe_total (a b : Product) : mockCmpLe a b || mockCmpLe b a := by
  simp only [mockCmpLe, Bool.or_eq_true, decide_eq_true_eq]
  rcases le_total (simOr0 a) (simOr0 b) with h | h
  · right; linarith
  · left; linarith

/-- When every Math.random draw returns the same value c, the scored catalog
gives every product the same similarity c * 0.4 + 0.6. -/
theorem mockWithScores_const (c : ℚ) :
    mockWithScores (fun _ => c) = mockWithConstSim (c * (2/5) + 3/5) := by
  simp [mockWithScores, mockWithConstSim, mockProducts]

/-- A constant-similarity catalog is already sorted for the mock
comparator (every pairwise comparison is a tie). -/
theorem pairwise_mockCmpLe_const (q : ℚ) :
    (mockWithConstSim q).Pairwise (fun a b => mockCmpLe a b = true) := by
  unfold mockWithConstSim
  rw [List.pairwise_map]
  refine pairwise_of_all (fun a b => ?_) mockProducts
  simp [mockCmpLe, simOr0, jsNumOr]

/-- With constant draws the generator returns the scored catalog in catalog
order: the stable sort of an all-tied list changes nothing. -/
theorem generateMock_const (c : ℚ) (img : Option String) :
    generateMockSearchResults (fun _ => c) img = mockWithConstSim (c * (2/5) + 3/5) := by
  rw [generateMockSearchResults, mockWithScores_const]
  exact List.mergeSort_of_sorted (pairwise_mockCmpLe_const _)

/-- Every handleImageUpload event leaves exactly one request source set. -/
theorem handleImageUpload_exactlyOne (s : MatcherState) (i : UploadInput) :
    exactlyOneSource (handleImageUpload s i) := by
  cases i <;> simp [handleImageUpload, exactlyOneSource]

/-- Upload events preserve the never-both-sources-set property. -/
theorem notBoth_foldl (es : List UploadInput) (s : MatcherState)
    (h : ¬(s.uploadedFile.isSome = true ∧ s.imageUrl.isSome = true)) :
    ¬((List.foldl handleImageUpload s es).uploadedFile.isSome = true ∧
      (List.foldl handleImageUpload s es).imageUrl.isSome = true) := by
  induction es generalizing s with
  | nil => simpa using h
  | cons e es ih =>
    simp only [List.foldl_cons]
    apply ih
    rcases handleImageUpload_exactlyOne s e with ⟨h1, h2⟩ | ⟨h1, h2⟩ <;> simp [h1, h2]

/-- C1: threshold filtering keeps exactly the results whose effective
similarity reaches the threshold (with the default empty category
selection), and raising the threshold shrinks the result set: for the same
search results and any fixed category selection, every result passing the
higher threshold passes the lower one. -/
theorem filteredResults_threshold_spec (results : List Product) (t1 t2 : ℚ)
    (cats : List String) (h : t1 < t2) :
    (∀ p, p ∈ filteredResults results t1 [] ↔ p ∈ results ∧ t1 ≤ effectiveSimilarity p) ∧
    (∀ p, p ∈ filteredResults results t2 cats → p ∈ filteredResults results t1 cats) := by
  constructor
  · intro p
    simp [filteredResults, List.mem_filter, meetsCategory]
  · intro p hp
    simp only [filteredResults, List.mem_filter, Bool.and_eq_true, decide_eq_true_eq,
      ge_iff_le] at hp ⊢
    exact ⟨hp.1, le_trans h.le hp.2.1, hp.2.2⟩

/-- Witness for C1 at thresholds 50 and 60 on a one-element result list. -/
theorem filteredResults_threshold_witness :
    (50 : ℚ) < 60 ∧
    (sampleResult ∈ filteredResults [sampleResult] 50 [] ↔
      sampleResult ∈ [sampleResult] ∧ (50 : ℚ) ≤ effectiveSimilarity sampleResult) :=
  ⟨by norm_num,
   (filteredResults_threshold_spec [sampleResult] 50 60 ["Electronics"] (by norm_num)).1
     sampleResult⟩

/-- C2: the mock search results are ordered by descending similarity, and any
two results with equal similarity that appear in some order in the scored
catalog keep that order in the output (the sort is stable), for every
sequence of random draws and any query image. -/
theorem generateMock_sorted_stable (rand : ℕ → ℚ) (img : Option String) :
    (generateMockSearchResults rand img).Pairwise (fun a b => simOr0 b ≤ simOr0 a) ∧
    (∀ p q : Product, simOr0 p = simOr0 q →
      List.Sublist [p, q] (mockWithScores rand) →
      List.Sublist [p, q] (generateMockSearchResults rand img)) := by
  constructor
  · refine (List.sorted_mergeSort mockCmpLe_trans mockCmpLe_total (mockWithScores rand)).imp ?_
    intro a b hab
    have := of_decide_eq_true hab
    linarith
  · intro p q hs hsub
    refine List.pair_sublist_mergeSort mockCmpLe_trans mockCmpLe_total ?_ hsub
    simp only [mockCmpLe, decide_eq_true_eq]
    linarith [hs.le]

/-- Witness for C2: with every draw 0 all similarities tie, and the first two
catalog entries keep their order in the output. -/
theorem generateMock_sorted_stable_witness :
    simOr0 { mockProduct1 with similarity := some (0 * (2/5) + 3/5) } =
      simOr0 { mockProduct2 with similarity := some (0 * (2/5) + 3/5) } ∧
    List.Sublist
      [{ mockProduct1 with similarity := some (0 * (2/5) + 3/5) },
       { mockProduct2 with similarity := some (0 * (2/5) + 3/5) }]
      (mockWithScores (fun _ => 0)) ∧
    List.Sublist
      [{ mockProduct1 with similarity := some (0 * (2/5) + 3/5) },
       { mockProduct2 with similarity := some (0 * (2/5) + 3/5) }]
      (generateMockSearchResults (fun _ => 0) none) := by
  have hs : simOr0 { mockProduct1 with similarity := some ((0:ℚ) * (2/5) + 3/5) } =
      simOr0 { mockProduct2 with similarity := some ((0:ℚ) * (2/5) + 3/5) } := rfl
  have hsub : List.Sublist
      [{ mockProduct1 with similarity := some ((0:ℚ) * (2/5) + 3/5) },
       { mockProduct2 with similarity := some ((0:ℚ) * (2/5) + 3/5) }]
      (mockWithScores (fun _ => 0)) := by
    rw [mockWithScores_const]
    simp [mockWithConstSim, mockProducts, List.cons_sublist_cons, List.nil_sublist]
  exact ⟨hs, hsub, (generateMock_sorted_stable (fun _ => 0) none).2 _ _ hs hsub⟩

/-- C3: when no image has been provided (the uploadedImage state is null),
handleSearch reports the no-image validation toast and the search API is not
invoked. -/
theorem handleSearch_noImage (s : MatcherState) (h : s.uploadedImage = none) :
    handleSearch s = SearchOutcome.noImageToast ∧
    callsSearchApi (handleSearch s) = false := by
  simp [handleSearch, jsTruthyStr, h, callsSearchApi]

/-- Witness for C3 at the initial component state. -/
theorem handleSearch_noImage_witness :
    initialMatcherState.uploadedImage = none ∧
    handleSearch initialMatcherState = SearchOutcome.noImageToast ∧
    callsSearchApi (handleSearch initialMatcherState) = false :=
  ⟨rfl, handleSearch_noImage initialMatcherState rfl⟩

/-- Counterexample to C4: when both a file and a URL are supplied, the built
form is not the file-only form, so the URL is not ignored. -/
theorem searchForm_url_not_ignored :
    searchSimilarProductsForm (some sampleFile) (some sampleUrl) ≠
      searchSimilarProductsForm (some sampleFile) none := by
  intro h
  have hlen := congrArg List.length h
  have hu : sampleUrl.isEmpty = false := by decide
  simp [searchSimilarProductsForm, hu] at hlen

/-- C4 amended: when both a file and a non-empty URL are supplied, the
client submits both: the form contains the file entry and the image_url
entry (no precedence is applied by the client). -/
theorem searchForm_includes_both (f : FileV) (u : String) (hu : u.isEmpty = false) :
    ("file", FormVal.file f) ∈ searchSimilarProductsForm (some f) (some u) ∧
    ("image_url", FormVal.str u) ∈ searchSimilarProductsForm (some f) (some u) := by
  simp [searchSimilarProductsForm, hu]

/-- Witness for the amended C4 at a concrete file and URL. -/
theorem searchForm_includes_both_witness :
    sampleUrl.isEmpty = false ∧
    ("file", FormVal.file sampleFile) ∈
      searchSimilarProductsForm (some sampleFile) (some sampleUrl) ∧
    ("image_url", FormVal.str sampleUrl) ∈
      searchSimilarProductsForm (some sampleFile) (some sampleUrl) :=
  ⟨by decide, searchForm_includes_both sampleFile sampleUrl (by decide)⟩

/-- Counterexample to C5: two invocations of the generator whose Math.random
draws differ return different results for the same (absent) query image, so
repeated searches are not bit-identical. -/
theorem generateMock_not_run_identical :
    generateMockSearchResults (fun _ => 0) none ≠
      generateMockSearchResults (fun _ => (1/4 : ℚ)) none := by
  rw [generateMock_const, generateMock_const]
  intro h
  simp only [mockWithConstSim, mockProducts, List.map_cons, List.cons.injEq] at h
  have h1 := h.1
  simp only [Product.mk.injEq, Option.some.injEq] at h1
  norm_num at h1

/-- C5 amended: the generator output is a function of the random draw
sequence alone: for a fixed draw sequence the result is identical across
invocations and independent of the query image, and it is a permutation of
the scored catalog whose scores are determined by the draws. -/
theorem generateMock_deterministic_given_draws (rand : ℕ → ℚ) (img1 img2 : Option String) :
    generateMockSearchResults rand img1 = generateMockSearchResults rand img2 ∧
    (generateMockSearchResults rand img1).Perm (mockWithScores rand) :=
  ⟨rfl, List.mergeSort_perm _ _⟩

/-- Counterexample to C6: a GIF upload has a content type outside
JPEG/PNG/WebP yet handleFiles accepts it (its type starts with image/ and it
is within the size limit). -/
theorem handleFiles_accepts_gif :
    handleFiles [gifFile] = UploadOutcome.accepted gifFile ∧
    gifFile.type ≠ "image/jpeg" ∧ gifFile.type ≠ "image/png" ∧
    gifFile.type ≠ "image/webp" := by
  decide

/-- C6 amended: handleFiles accepts a file exactly when its content type
starts with image/ and its size is at most 10MB (so JPEG, PNG and WebP
within the limit are accepted, but so is every other image/* type), and
rejects a file whose content type does not start with image/ with the
invalid-type toast. -/
theorem handleFiles_spec (f : FileV) :
    (handleFiles [f] = UploadOutcome.accepted f ↔
      jsStartsWith f.type "image/" = true ∧ f.size ≤ 10 * 1024 * 1024) ∧
    (jsStartsWith f.type "image/" = false →
      handleFiles [f] = UploadOutcome.invalidTypeToast) := by
  cases ht : jsStartsWith f.type "image/" with
  | false =>
    refine ⟨?_, fun _ => ?_⟩ <;> simp [handleFiles, ht]
  | true =>
    refine ⟨?_, fun hc => by simp [ht] at hc⟩
    by_cases hs : f.size > 10 * 1024 * 1024
    · simp [handleFiles, ht, hs]
    · simp [handleFiles, ht, hs]
      omega

/-- Witness for the amended C6: a text file is rejected with the
invalid-type toast. -/
theorem handleFiles_spec_witness :
    jsStartsWith textFile.type "image/" = false ∧
    handleFiles [textFile] = UploadOutcome.invalidTypeToast :=
  ⟨by decide, (handleFiles_spec textFile).2 (by decide)⟩

/-- C7: with the optional parameters omitted, the search request form carries
the documented defaults: top_k 11 and similarity_threshold 0. -/
theorem searchForm_defaults (f : Option FileV) (u : Option String) :
    List.lookup "top_k" (searchSimilarProductsForm f u) = some (FormVal.num 11) ∧
    List.lookup "similarity_threshold" (searchSimilarProductsForm f u) =
      some (FormVal.num 0) := by
  rcases f with _ | f <;> rcases u with _ | u <;>
    simp [searchSimilarProductsForm, List.lookup] <;>
    split <;> simp [List.lookup]

/-- C8: the similarity percentage shown by ProductCard is the similarity
score times 100 rounded to the nearest integer (halves toward positive
infinity, as Math.round does), and a result with no similarity score yields
0. -/
theorem similarityPercentage_spec (p : Product) :
    similarityPercentage p =
      (match p.similarity with
       | some s => round (s * 100)
       | none => 0) := by
  cases hp : p.similarity with
  | none => simp [similarityPercentage, hp]
  | some s =>
    by_cases hs : s = 0
    · subst hs
      simp [similarityPercentage, hp]
    · simp [similarityPercentage, hp, hs]

/-- C9: after any sequence of image-upload events starting from the initial
state, the stored file and the stored URL are never both set, and after every
upload event exactly one of them is set. -/
theorem uploadSources_invariant (es : List UploadInput) :
    (¬((List.foldl handleImageUpload initialMatcherState es).uploadedFile.isSome = true ∧
       (List.foldl handleImageUpload initialMatcherState es).imageUrl.isSome = true)) ∧
    ∀ e, exactlyOneSource (List.foldl handleImageUpload initialMatcherState (es ++ [e])) := by
  constructor
  · exact notBoth_foldl es initialMatcherState (by simp [initialMatcherState])
  · intro e
    simp only [List.foldl_append, List.foldl_cons, List.foldl_nil]
    exact handleImageUpload_exactlyOne _ e

/-- C10: with a base URL that starts with http (as the default does),
getImageUrl is idempotent: a path that already starts with http is returned
unchanged, and every constructed URL starts with the base URL and hence with
http. -/
theorem getImageUrl_idempotent (baseUrl : String)
    (h : jsStartsWith baseUrl "http" = true) (p : String) :
    getImageUrl baseUrl (getImageUrl baseUrl p) = getImageUrl baseUrl p := by
  by_cases hp : jsStartsWith p "http" = true
  · simp [getImageUrl, hp]
  · have h2 : jsStartsWith
        (baseUrl ++ "/" ++ (if jsStartsWith p "static/" then p else "static/" ++ p))
        "http" = true :=
      jsStartsWith_append _ _ _ (jsStartsWith_append _ _ _ h)
    simp [getImageUrl, hp, h2]

/-- Witness for C10 at the default base URL and a relative image path. -/
theorem getImageUrl_idempotent_witness :
    jsStartsWith defaultApiBaseUrl "http" = true ∧
    getImageUrl defaultApiBaseUrl (getImageUrl defaultApiBaseUrl "images/p1.jpg") =
      getImageUrl defaultApiBaseUrl "images/p1.jpg" :=
  ⟨by decide, getImageUrl_idempotent defaultApiBaseUrl (by decide) "images/p1.jpg"⟩
